import Mathlib

/-!
Shallow embedding of the FastAPI-with-OPA authorization gate:
the `OPAAdapter.check_permission` policy client (src/app/adapters/opa_adapter.py)
and the `OPAMiddleware.dispatch` enforcement gate
(src/app/infrastructure/middleware.py), together with theorems settling the
specification claims about them.
-/

namespace FastapiOpa

/-- JSON values, used both for the decision query and for the policy engine's
response body. Numbers are modelled as integers (no claim involves fractional
numbers). -/
inductive Json where
  | null
  | bool (b : Bool)
  | num (n : Int)
  | str (s : String)
  | arr (elems : List Json)
  | obj (fields : List (String × Json))

/-- Python truthiness for a JSON value (`None`, `False`, `0`, `""`, `[]`, `{}`
are falsy), as applied by `if not is_allowed:` in middleware.py line 30. -/
def pyTruthy : Json → Bool
  | .null => false
  | .bool b => b
  | .num n => n != 0
  | .str s => s != ""
  | .arr [] => false
  | .arr (_ :: _) => true
  | .obj [] => false
  | .obj (_ :: _) => true

/-- Embedding of Python `dict.get(key)` on a JSON object's field list:
the value bound to the first matching key, if any. -/
def dictGet (fields : List (String × Json)) (key : String) : Option Json :=
  (fields.find? (fun p => p.1 == key)).map (fun p => p.2)

/-- Boolean test that one character list is a prefix of another; helper for
`pyStartswith`. -/
def charsPrefix : List Char → List Char → Bool
  | [], _ => true
  | _ :: _, [] => false
  | c :: cs, d :: ds => c == d && charsPrefix cs ds

/-- Embedding of Python `s.startswith(pfx)` (middleware.py line 13). -/
def pyStartswith (s pfx : String) : Bool :=
  charsPrefix pfx.data s.data

/-- Embedding of Python `str.split(sep)` with a one-character separator, on
character lists: empty pieces are kept, and the empty input yields one empty
piece (`"".split(",") == [""]`). -/
def pySplitList (sep : Char) : List Char → List (List Char)
  | [] => [[]]
  | c :: cs =>
    match pySplitList sep cs with
    | [] => [[]]
    | h :: t => if c == sep then [] :: h :: t else (c :: h) :: t

/-- Embedding of Python `s.split(sep)` with a one-character separator
(used with `"/"` at middleware.py line 22 and `","` at line 18). -/
def pySplit (sep : Char) (s : String) : List String :=
  (pySplitList sep s.data).map (fun l => String.mk l)

/-- An inbound HTTP request as the gate observes it: URL path, method, and the
result of `request.headers.get("USER_ROLES")` (`none` when the header is
absent). -/
structure Request where
  path : String
  method : String
  userRoles : Option String

/-- An HTTP response: status code, body, extra headers. The gate's 401
rejection is built with no extra headers (middleware.py lines 31-34). -/
structure Response where
  status : Nat
  body : String
  headers : List (String × String)
deriving DecidableEq

/-- The fixed rejection response
`Response(content="Unauthorized", status_code=401)` of middleware.py
lines 31-34. -/
def unauthorizedResponse : Response :=
  { status := 401, body := "Unauthorized", headers := [] }

/-- Role extraction, middleware.py lines 17-18:
`roles_header = request.headers.get("USER_ROLES", "")` and
`roles = roles_header.split(",") if roles_header else []`. -/
def roles_of (userRoles : Option String) : List String :=
  let roles_header := userRoles.getD ""
  if roles_header == "" then [] else pySplit ',' roles_header

/-- Path-segment extraction, middleware.py line 22:
`request.url.path.split("/")`. -/
def path_segments (p : String) : List String :=
  pySplit '/' p

/-- The OPA input document built at middleware.py lines 21-25:
`{"path": ..., "roles": ..., "method": ...}`. -/
def opa_input (req : Request) : Json :=
  .obj [("path", .arr ((path_segments req.path).map .str)),
        ("roles", .arr ((roles_of req.userRoles).map .str)),
        ("method", .str req.method)]

/-- How the remote policy engine's reply to the single POST can look from the
client's side: a transport-level failure (the `await self.client.post`
raises), or an HTTP response whose body either fails to parse as JSON
(`response.json()` raises) or is a JSON value. -/
inductive EngineBody where
  | unparsable (cause : String)
  | json (j : Json)

inductive EngineResponse where
  | transportError (cause : String)
  | response (status : Nat) (body : EngineBody)

/-- httpx success statuses: `response.raise_for_status()`
(opa_adapter.py line 15) raises for every non-2xx status. -/
def is_success (status : Nat) : Bool :=
  decide (200 ≤ status ∧ status < 300)

/-- The message of the exception `raise Exception(f"OPA policy check failed:
{str(e)}")` at opa_adapter.py line 19, wrapping the underlying cause. -/
def wrapErr (cause : String) : String :=
  "OPA policy check failed: " ++ cause

/-- Stand-in for `str` of the `httpx.HTTPStatusError` raised by
`raise_for_status` on a non-success status; the embedding only tracks that a
distinct cause string derived from the status is wrapped. -/
def httpStatusErrorMsg (status : Nat) : String :=
  "HTTPStatusError: " ++ toString status

/-- Stand-in for `str` of the `AttributeError` raised by calling `.get` on a
non-dict value in `result.get("result", {}).get("allow", False)`. -/
def attributeErrorMsg : String :=
  "AttributeError: object has no attribute get"

/-- Embedding of `result.get("result", {}).get("allow", False)`
(opa_adapter.py line 17) applied to the parsed JSON body `j`: if `j` is not a
dict the first `.get` raises; if the value at `"result"` (defaulting to `{}`)
is not a dict the second `.get` raises; otherwise the value at `"allow"`
(defaulting to `False`) is returned. -/
def result_allow (j : Json) : Except String Json :=
  match j with
  | .obj fields =>
    match (dictGet fields "result").getD (.obj []) with
    | .obj rfields => .ok ((dictGet rfields "allow").getD (.bool false))
    | _ => .error attributeErrorMsg
  | _ => .error attributeErrorMsg

/-- The policy client, opa_adapter.py. `opa_url` is the configured
PolicyEngineEndpoint. -/
structure OPAAdapter where
  opa_url : String

/-- The single outbound HTTP POST issued by
`self.client.post(self.opa_url, json={"input": input_data})`
(opa_adapter.py lines 11-14): target URL and JSON body. -/
structure OutboundPost where
  url : String
  body : Json

/-- The outbound POST `check_permission` issues for a given input document:
posted to `self.opa_url` with body `{"input": input_data}`. -/
def OPAAdapter.postOf (a : OPAAdapter) (input_data : Json) : OutboundPost :=
  { url := a.opa_url, body := .obj [("input", input_data)] }

/-- Embedding of `OPAAdapter.check_permission` (opa_adapter.py lines 9-19),
evaluated against an engine behaviour `engine`: POST, `raise_for_status`,
`response.json()`, then the lenient field chain `result_allow`; every
exception inside the `try` is re-raised as
`Exception("OPA policy check failed: " + str(e))`, modelled as `.error` with
the wrapped message. A returned value is `.ok`. -/
def OPAAdapter.check_permission (_a : OPAAdapter) (_input_data : Json)
    (engine : EngineResponse) : Except String Json :=
  match engine with
  | .transportError cause => .error (wrapErr cause)
  | .response status body =>
    if is_success status then
      match body with
      | .unparsable cause => .error (wrapErr cause)
      | .json j =>
        match result_allow j with
        | .ok v => .ok v
        | .error cause => .error (wrapErr cause)
    else .error (wrapErr (httpStatusErrorMsg status))

/-- Outcome of one `dispatch` call at the gate boundary: the downstream
handler's response was returned (`forwarded`, produced only by
`await call_next(request)`), the fixed 401 was returned (`rejected`), or an
exception escaped `dispatch` uncaught (`raised`). -/
inductive GateResult where
  | forwarded (resp : Response)
  | rejected (resp : Response)
  | raised (msg : String)
deriving DecidableEq

/-- Embedding of `OPAMiddleware.dispatch` (middleware.py lines 11-36),
evaluated against a downstream handler `call_next` and an engine behaviour
`engine`. The second component records the outbound policy POSTs issued
during the call (empty on the health bypass, exactly one otherwise). There
is no `try` around `check_permission` in `dispatch`, so a client error
escapes as `raised`. -/
def OPAMiddleware.dispatch (a : OPAAdapter) (req : Request)
    (call_next : Request → Response) (engine : EngineResponse) :
    GateResult × List OutboundPost :=
  if pyStartswith req.path "/health" then
    (.forwarded (call_next req), [])
  else
    match a.check_permission (opa_input req) engine with
    | .error e => (.raised e, [a.postOf (opa_input req)])
    | .ok v =>
      if pyTruthy v then (.forwarded (call_next req), [a.postOf (opa_input req)])
      else (.rejected unauthorizedResponse, [a.postOf (opa_input req)])

/-! Helper lemmas about the Python string-splitting and prefix embeddings. -/

/-- Splitting never yields an empty list of pieces. -/
theorem pySplitList_ne_nil (sep : Char) (l : List Char) : pySplitList sep l ≠ [] := by
  cases l with
  | nil => simp [pySplitList]
  | cons c cs =>
    simp only [pySplitList]
    cases h : pySplitList sep cs with
    | nil => simp
    | cons a t => dsimp only; split <;> simp

/-- Splitting a list that starts with the separator yields a leading empty
piece. -/
theorem pySplitList_sep_cons (sep : Char) (cs : List Char) :
    pySplitList sep (sep :: cs) = [] :: pySplitList sep cs := by
  simp only [pySplitList]
  cases h : pySplitList sep cs with
  | nil => exact absurd h (pySplitList_ne_nil sep cs)
  | cons a t => simp

/-- A character list is a Boolean prefix of itself followed by anything. -/
theorem charsPrefix_append (l t : List Char) : charsPrefix l (l ++ t) = true := by
  induction l with
  | nil => rfl
  | cons c cs ih => simp [charsPrefix, ih]

/-- Appending a suffix to a string keeps the original string as a prefix. -/
theorem pyStartswith_append (p s : String) : pyStartswith (p ++ s) p = true := by
  unfold pyStartswith
  rw [String.data_append]
  exact charsPrefix_append p.data s.data

/-- Any path that starts with a slash splits into a segment list whose first
segment is the empty string. -/
theorem path_segments_head (p : String) (h : pyStartswith p "/" = true) :
    (path_segments p).head? = some "" := by
  have h' : charsPrefix ['/'] p.data = true := h
  unfold path_segments pySplit
  cases hd : p.data with
  | nil => rw [hd] at h'; simp [charsPrefix] at h'
  | cons c cs =>
    rw [hd] at h'
    simp [charsPrefix] at h'
    rw [← h', pySplitList_sep_cons]
    rfl

/-! Claim theorems. -/

/-- Claim C5: for every request whose path matches the health-check prefix,
the gate invokes no policy evaluation (no outbound POST) and forwards the
request to the downstream handler unconditionally, regardless of headers,
method, or engine behaviour. -/
theorem c5_health_bypass (a : OPAAdapter) (req : Request)
    (call_next : Request → Response) (engine : EngineResponse)
    (h : pyStartswith req.path "/health" = true) :
    OPAMiddleware.dispatch a req call_next engine = (.forwarded (call_next req), []) := by
  simp [OPAMiddleware.dispatch, h]

/-- Witness for C5: a `GET /health/liveness` request is forwarded with zero
policy POSTs even when the policy engine is unreachable. -/
theorem c5_health_bypass_witness :
    OPAMiddleware.dispatch ⟨"http://opa:8181/v1/data/sample"⟩
        ⟨"/health/liveness", "GET", none⟩ (fun _ => ⟨200, "alive", []⟩)
        (.transportError "connection refused")
      = (.forwarded ⟨200, "alive", []⟩, []) :=
  c5_health_bypass ⟨"http://opa:8181/v1/data/sample"⟩ ⟨"/health/liveness", "GET", none⟩
    (fun _ => ⟨200, "alive", []⟩) (.transportError "connection refused") (by decide)

/-- Claim C10: the health bypass is a plain string-prefix test on the path,
so every path of the form `"/health" ++ suffix` — in particular `"/healthz"`
and `"/healthcheck"`, which are not among the two declared health endpoints —
skips policy evaluation entirely (no outbound POST) and reaches routing
unconditionally. -/
theorem c10_prefix_bypass (suffix method : String) (userRoles : Option String)
    (a : OPAAdapter) (call_next : Request → Response) (engine : EngineResponse) :
    OPAMiddleware.dispatch a ⟨"/health" ++ suffix, method, userRoles⟩ call_next engine
        = (.forwarded (call_next ⟨"/health" ++ suffix, method, userRoles⟩), []) ∧
    OPAMiddleware.dispatch a ⟨"/healthz", method, userRoles⟩ call_next engine
        = (.forwarded (call_next ⟨"/healthz", method, userRoles⟩), []) ∧
    OPAMiddleware.dispatch a ⟨"/healthcheck", method, userRoles⟩ call_next engine
        = (.forwarded (call_next ⟨"/healthcheck", method, userRoles⟩), []) := by
  refine ⟨?_, ?_, ?_⟩
  · simp [OPAMiddleware.dispatch, pyStartswith_append]
  · simp [OPAMiddleware.dispatch, (by decide : pyStartswith "/healthz" "/health" = true)]
  · simp [OPAMiddleware.dispatch, (by decide : pyStartswith "/healthcheck" "/health" = true)]

/-- Claim C2: the gate forwards to the downstream handler only when the
request path triggers the health bypass or `check_permission` returned a
verdict the gate treats as true (Python-truthy); a denied or failed policy
evaluation never results in forwarding. -/
theorem c2_forward_only_if_allowed (a : OPAAdapter) (req : Request)
    (call_next : Request → Response) (engine : EngineResponse) (resp : Response)
    (h : (OPAMiddleware.dispatch a req call_next engine).1 = .forwarded resp) :
    pyStartswith req.path "/health" = true ∨
      ∃ v, a.check_permission (opa_input req) engine = .ok v ∧ pyTruthy v = true := by
  by_cases hh : pyStartswith req.path "/health" = true
  · exact Or.inl hh
  · right
    rw [Bool.not_eq_true] at hh
    unfold OPAMiddleware.dispatch at h
    rw [hh] at h
    simp only [Bool.false_eq_true, if_false] at h
    cases hc : a.check_permission (opa_input req) engine with
    | error e => rw [hc] at h; simp at h
    | ok v =>
      rw [hc] at h
      by_cases ht : pyTruthy v = true
      · exact ⟨v, rfl, ht⟩
      · rw [Bool.not_eq_true] at ht
        simp [ht] at h

/-- Witness for C2: instantiating the only-if direction on a non-health
request whose policy evaluation returned `allow = true`. -/
theorem c2_forward_only_if_allowed_witness :
    pyStartswith "/v1/admin/users/alice" "/health" = true ∨
      ∃ v, OPAAdapter.check_permission ⟨"http://opa:8181/v1/data/sample"⟩
            (opa_input ⟨"/v1/admin/users/alice", "GET", none⟩)
            (.response 200 (.json (.obj [("result", .obj [("allow", .bool true)])])))
          = .ok v ∧ pyTruthy v = true :=
  c2_forward_only_if_allowed ⟨"http://opa:8181/v1/data/sample"⟩
    ⟨"/v1/admin/users/alice", "GET", none⟩ (fun _ => ⟨200, "ok", []⟩)
    (.response 200 (.json (.obj [("result", .obj [("allow", .bool true)])])))
    ⟨200, "ok", []⟩ rfl

/-- Claim C6: the role list derived from the `USER_ROLES` header is empty
when the header is absent or empty; from `"a,b"` it is `["a", "b"]`, whose
underlying set is exactly `{a, b}`; and from `"a,,b"` it contains an
empty-string element. -/
theorem c6_roles_header :
    roles_of none = [] ∧ roles_of (some "") = [] ∧
    roles_of (some "a,b") = ["a", "b"] ∧
    (roles_of (some "a,b")).toFinset = {"a", "b"} ∧
    "" ∈ roles_of (some "a,,b") :=
  ⟨rfl, rfl, by decide, by decide, by decide⟩

/-- Claim C7: the decision query's path segments are the request path split
on `"/"` keeping the empty leading segment (any slash-initial path has `""`
as its first segment), and `"/v1/admin/users/alice"` yields exactly
`["", "v1", "admin", "users", "alice"]`. -/
theorem c7_path_split :
    (∀ p : String, pyStartswith p "/" = true → (path_segments p).head? = some "") ∧
    path_segments "/v1/admin/users/alice" = ["", "v1", "admin", "users", "alice"] :=
  ⟨path_segments_head, by decide⟩

/-- Witness for C7: the leading-empty-segment property instantiated at the
concrete path `"/v1/admin/users/alice"`. -/
theorem c7_path_split_witness : (path_segments "/v1/admin/users/alice").head? = some "" :=
  c7_path_split.1 "/v1/admin/users/alice" (by decide)

/-- Counterexample to claim C1 as stated: on a non-health request whose
policy evaluation fails (connection refused), `dispatch` does not produce the
401 "Unauthorized" response — there is no `try` around `check_permission`, so
the wrapped exception escapes the gate uncaught. -/
theorem c1_counterexample :
    (OPAMiddleware.dispatch ⟨"http://opa:8181/v1/data/sample"⟩
        ⟨"/v1/admin/users/alice", "GET", none⟩ (fun _ => ⟨200, "ok", []⟩)
        (.transportError "connection refused")).1
      = .raised "OPA policy check failed: connection refused" ∧
    (OPAMiddleware.dispatch ⟨"http://opa:8181/v1/data/sample"⟩
        ⟨"/v1/admin/users/alice", "GET", none⟩ (fun _ => ⟨200, "ok", []⟩)
        (.transportError "connection refused")).1
      ≠ .rejected unauthorizedResponse :=
  ⟨by decide, by decide⟩

/-- Claim C1 as amended: on a non-health request, a false (falsy) verdict
from `check_permission` yields exactly the 401 "Unauthorized" response, while
an engine-failure error raised by `check_permission` propagates out of
`dispatch` uncaught; in both cases the result is not `forwarded`, so the
downstream handler is never invoked. -/
theorem c1_deny_or_error (a : OPAAdapter) (req : Request)
    (call_next : Request → Response) (engine : EngineResponse)
    (hn : pyStartswith req.path "/health" = false) :
    (∀ v, a.check_permission (opa_input req) engine = .ok v → pyTruthy v = false →
        OPAMiddleware.dispatch a req call_next engine
          = (.rejected unauthorizedResponse, [a.postOf (opa_input req)])) ∧
    (∀ e, a.check_permission (opa_input req) engine = .error e →
        OPAMiddleware.dispatch a req call_next engine
          = (.raised e, [a.postOf (opa_input req)])) := by
  constructor
  · intro v hv ht
    simp [OPAMiddleware.dispatch, hn, hv, ht]
  · intro e he
    simp [OPAMiddleware.dispatch, hn, he]

/-- Witness for the amended C1: a denied request (`allow = false` from the
engine) receives exactly the 401 "Unauthorized" rejection. -/
theorem c1_deny_or_error_witness :
    OPAMiddleware.dispatch ⟨"http://opa:8181/v1/data/sample"⟩
        ⟨"/v1/admin/users/alice", "GET", none⟩ (fun _ => ⟨200, "ok", []⟩)
        (.response 200 (.json (.obj [("result", .obj [("allow", .bool false)])])))
      = (.rejected unauthorizedResponse,
         [OPAAdapter.postOf ⟨"http://opa:8181/v1/data/sample"⟩
            (opa_input ⟨"/v1/admin/users/alice", "GET", none⟩)]) :=
  (c1_deny_or_error ⟨"http://opa:8181/v1/data/sample"⟩
      ⟨"/v1/admin/users/alice", "GET", none⟩ (fun _ => ⟨200, "ok", []⟩)
      (.response 200 (.json (.obj [("result", .obj [("allow", .bool false)])])))
      (by decide)).1 (.bool false) rfl rfl

/-- Counterexample to claim C3 as stated: a success-status response whose
valid-JSON body `{"result": {}}` cannot be parsed as the expected structure
(the `allow` field is missing), yet `check_permission` returns `allow = false`
instead of raising. -/
theorem c3_counterexample :
    OPAAdapter.check_permission ⟨"http://opa:8181/v1/data/sample"⟩ (.obj [])
        (.response 200 (.json (.obj [("result", .obj [])])))
      = .ok (.bool false) := rfl

/-- Claim C3 as amended: a transport-level failure, a non-success HTTP
status, or a body that is not parseable JSON each makes `check_permission`
raise an error wrapping the underlying cause (never returning false); but a
success response whose body is valid JSON merely missing the expected
`result`/`allow` fields returns `allow = false` instead of raising. -/
theorem c3_engine_failures (a : OPAAdapter) (input_data : Json) :
    (∀ cause, a.check_permission input_data (.transportError cause)
        = .error (wrapErr cause)) ∧
    (∀ status body, is_success status = false →
        a.check_permission input_data (.response status body)
          = .error (wrapErr (httpStatusErrorMsg status))) ∧
    (∀ status cause, is_success status = true →
        a.check_permission input_data (.response status (.unparsable cause))
          = .error (wrapErr cause)) := by
  refine ⟨fun cause => rfl, fun status body hs => ?_, fun status cause hs => ?_⟩
  · simp [OPAAdapter.check_permission, hs]
  · simp [OPAAdapter.check_permission, hs]

/-- Witness for the amended C3: a 500 status from the engine makes
`check_permission` raise the wrapped status error. -/
theorem c3_engine_failures_witness :
    OPAAdapter.check_permission ⟨"http://opa:8181/v1/data/sample"⟩ (.obj [])
        (.response 500 (.json .null))
      = .error (wrapErr (httpStatusErrorMsg 500)) :=
  (c3_engine_failures ⟨"http://opa:8181/v1/data/sample"⟩ (.obj [])).2.1 500
    (.json .null) (by decide)

/-- Counterexample to claim C4 as stated: the success-status valid-JSON body
`{"result": true}` does not have the expected shape, yet `check_permission`
does not return `allow = false` — calling `.get` on the non-dict `result`
value raises, and the wrapped error escapes. -/
theorem c4_counterexample :
    OPAAdapter.check_permission ⟨"http://opa:8181/v1/data/sample"⟩ (.obj [])
        (.response 200 (.json (.obj [("result", .bool true)])))
      = .error (wrapErr attributeErrorMsg) := rfl

/-- Claim C4 as amended: on a success-status JSON-object body, a missing
`result` field, or a `result` object missing the `allow` field, makes
`check_permission` return `allow = false`; shapes in which the body or its
`result` value is not an object instead raise (see the counterexample). -/
theorem c4_missing_fields_false (a : OPAAdapter) (input_data : Json) (status : Nat)
    (fields rfields : List (String × Json)) (hs : is_success status = true) :
    (dictGet fields "result" = none →
        a.check_permission input_data (.response status (.json (.obj fields)))
          = .ok (.bool false)) ∧
    (dictGet fields "result" = some (.obj rfields) → dictGet rfields "allow" = none →
        a.check_permission input_data (.response status (.json (.obj fields)))
          = .ok (.bool false)) := by
  constructor
  · intro hr
    have hra : result_allow (.obj fields) = .ok (.bool false) := by
      simp only [result_allow, hr]
      rfl
    simp [OPAAdapter.check_permission, hs, hra]
  · intro hr ha
    have hra : result_allow (.obj fields) = .ok (.bool false) := by
      simp only [result_allow, hr, Option.getD_some, ha]
      rfl
    simp [OPAAdapter.check_permission, hs, hra]

/-- Witness for the amended C4: the empty JSON object body `{}` with status
200 yields `allow = false`. -/
theorem c4_missing_fields_false_witness :
    OPAAdapter.check_permission ⟨"http://opa:8181/v1/data/sample"⟩ (.obj [])
        (.response 200 (.json (.obj [])))
      = .ok (.bool false) :=
  (c4_missing_fields_false ⟨"http://opa:8181/v1/data/sample"⟩ (.obj []) 200 [] []
    (by decide)).1 rfl

/-- Claim C8: on every non-health request the gate performs exactly one
policy evaluation, issuing a single POST to the configured
PolicyEngineEndpoint whose JSON body is the decision query under the
`"input"` envelope key: path segments (split on `"/"`), roles, and method. -/
theorem c8_single_post (a : OPAAdapter) (req : Request)
    (call_next : Request → Response) (engine : EngineResponse)
    (hn : pyStartswith req.path "/health" = false) :
    (OPAMiddleware.dispatch a req call_next engine).2
      = [{ url := a.opa_url,
           body := .obj [("input",
             .obj [("path", .arr ((path_segments req.path).map .str)),
                   ("roles", .arr ((roles_of req.userRoles).map .str)),
                   ("method", .str req.method)])] }] := by
  unfold OPAMiddleware.dispatch
  rw [hn]
  simp only [Bool.false_eq_true, if_false]
  cases a.check_permission (opa_input req) engine with
  | error e => simp [OPAAdapter.postOf, opa_input]
  | ok v => cases ht : pyTruthy v <;> simp [ht, OPAAdapter.postOf, opa_input]

/-- Witness for C8: the concrete outbound POST for
`GET /v1/admin/users/alice` with header `USER_ROLES: admin`. -/
theorem c8_single_post_witness :
    (OPAMiddleware.dispatch ⟨"http://opa:8181/v1/data/sample"⟩
        ⟨"/v1/admin/users/alice", "GET", some "admin"⟩ (fun _ => ⟨200, "ok", []⟩)
        (.response 200 (.json (.obj [("result", .obj [("allow", .bool true)])])))).2
      = [{ url := "http://opa:8181/v1/data/sample",
           body := .obj [("input",
             .obj [("path", .arr [.str "", .str "v1", .str "admin", .str "users",
                                  .str "alice"]),
                   ("roles", .arr [.str "admin"]),
                   ("method", .str "GET")])] }] :=
  c8_single_post ⟨"http://opa:8181/v1/data/sample"⟩
    ⟨"/v1/admin/users/alice", "GET", some "admin"⟩ (fun _ => ⟨200, "ok", []⟩)
    (.response 200 (.json (.obj [("result", .obj [("allow", .bool true)])])))
    (by decide)

/-- Claim C9: on a non-health request for which `check_permission` returns
`allow = true`, the gate invokes the downstream handler on the original,
unmodified request and returns its response unchanged. -/
theorem c9_forward_unmodified (a : OPAAdapter) (req : Request)
    (call_next : Request → Response) (engine : EngineResponse)
    (hn : pyStartswith req.path "/health" = false)
    (hv : a.check_permission (opa_input req) engine = .ok (.bool true)) :
    OPAMiddleware.dispatch a req call_next engine
      = (.forwarded (call_next req), [a.postOf (opa_input req)]) := by
  simp [OPAMiddleware.dispatch, hn, hv, pyTruthy]

/-- Witness for C9: an allowed `GET /v1/admin/users/alice` request is
forwarded and the downstream response comes back unchanged. -/
theorem c9_forward_unmodified_witness :
    OPAMiddleware.dispatch ⟨"http://opa:8181/v1/data/sample"⟩
        ⟨"/v1/admin/users/alice", "GET", some "admin"⟩
        (fun r => ⟨200, "Hello!! alice You have reached the Get Users", [("x-served", r.method)]⟩)
        (.response 200 (.json (.obj [("result", .obj [("allow", .bool true)])])))
      = (.forwarded ⟨200, "Hello!! alice You have reached the Get Users", [("x-served", "GET")]⟩,
         [OPAAdapter.postOf ⟨"http://opa:8181/v1/data/sample"⟩
            (opa_input ⟨"/v1/admin/users/alice", "GET", some "admin"⟩)]) :=
  c9_forward_unmodified ⟨"http://opa:8181/v1/data/sample"⟩
    ⟨"/v1/admin/users/alice", "GET", some "admin"⟩
    (fun r => ⟨200, "Hello!! alice You have reached the Get Users", [("x-served", r.method)]⟩)
    (.response 200 (.json (.obj [("result", .obj [("allow", .bool true)])])))
    (by decide) rfl

end FastapiOpa
